import Mathlib

/-!
Verification of the peer-credential resolver in `src/native/peer_cred.cc`.

The resolver is the N-API function `GetPeerCred`: given a JavaScript
argument list it validates that the first argument is a number, coerces it
to a 32-bit signed integer file descriptor, and then — depending on the
platform the addon was compiled for — queries the kernel for the peer's
credentials via `getsockopt`:

* Linux: one `SO_PEERCRED` query filling a `struct ucred` (pid, uid, gid).
* Apple: one mandatory `LOCAL_PEERCRED` query filling a `struct xucred`
  (uid and a 16-entry group array), then one best-effort `LOCAL_PEEREPID`
  query for the peer's effective pid whose return value is ignored.
* Any other platform: an unconditional "Unsupported platform" error.

The embedding models the kernel as a record of response functions (one per
socket option, each returning either the kernel-filled data or an `errno`),
and `GetPeerCred` as a pure function from platform, kernel and argument
list to the produced JavaScript value (or thrown exception) together with
the list of `getsockopt` calls it performed, in order.
-/

/-- The three compilation targets of the source's preprocessor branches:
`__linux__`, `__APPLE__`, and the `#else` fallback. -/
inductive OsFamily where
  | linux
  | apple
  | other
deriving DecidableEq, Repr

/-- Linux `struct ucred` as filled by `getsockopt(SO_PEERCRED)`:
`pid` is a signed `pid_t`, `uid`/`gid` are unsigned `uid_t`/`gid_t`. -/
structure Ucred where
  pid : Int
  uid : Nat
  gid : Nat
deriving DecidableEq, Repr

/-- BSD/macOS `struct xucred` as filled by `getsockopt(LOCAL_PEERCRED)`:
a version tag, the effective uid, the number of valid groups, and a
fixed 16-entry (`NGROUPS`) array of group ids. The source only reads
`cr_uid` and `cr_groups[0]`. -/
structure Xucred where
  cr_version : Nat
  cr_uid : Nat
  cr_ngroups : Nat
  cr_groups : Fin 16 → Nat

/-- The kernel-side state an invocation can observe: the outcome of each
socket-option query at each descriptor. `Except.error e` models a failing
`getsockopt` (return value `< 0`) with `errno = e`; `Except.ok` models a
successful query together with the data the kernel wrote into the
caller's buffer. -/
structure Kernel where
  soPeercred : Int → Except Int Ucred
  localPeercred : Int → Except Int Xucred
  localPeerepid : Int → Except Int Int

/-- A JavaScript number as seen through N-API: a finite IEEE-754 double
(every finite double is a dyadic rational, represented here exactly as
`m * 2 ^ e`) or one of the non-finite values. -/
inductive JSNum where
  | val (m : Int) (e : Int)
  | nan
  | inf
  | negInf
deriving DecidableEq, Repr

/-- A JavaScript argument: a number, or any non-number value (string,
null, undefined, object, ...), which is all `info[0].IsNumber()`
distinguishes. -/
inductive JSVal where
  | number (n : JSNum)
  | other
deriving DecidableEq, Repr

/-- Truncation of the dyadic rational `m * 2 ^ e` toward zero, the
fractional-part behaviour of a C `double`-to-integer cast. -/
def dyadicTrunc (m e : Int) : Int :=
  if 0 ≤ e then m * 2 ^ e.toNat
  else if 0 ≤ m then ((m.toNat / 2 ^ (-e).toNat : Nat) : Int)
  else -((((-m).toNat / 2 ^ (-e).toNat : Nat) : Int))

/-- `Napi::Number::Int32Value` (`napi_get_value_int32`): non-finite values
become `0`; finite values are truncated toward zero and reduced to the
bottom 32 bits, read as a signed 32-bit integer. -/
def toInt32 : JSNum → Int
  | .nan => 0
  | .inf => 0
  | .negInf => 0
  | .val m e =>
      let t := dyadicTrunc m e
      let r := Int.emod t (2 ^ 32)
      if r < 2 ^ 31 then r else r - 2 ^ 32

/-- One performed `getsockopt` call, recording which option was queried on
which descriptor. -/
inductive Syscall where
  | soPeercred (fd : Int)
  | localPeercred (fd : Int)
  | localPeerepid (fd : Int)
deriving DecidableEq, Repr

/-- What `GetPeerCred` hands back to the JavaScript caller: a thrown
`Napi::TypeError`, a thrown `Napi::Error`, or a result object whose
fields (all integral numbers) are listed in insertion order. -/
inductive GPCResult where
  | thrownTypeError (msg : String)
  | thrownError (msg : String)
  | obj (fields : List (String × Int))
deriving DecidableEq, Repr

/-- The body of `GetPeerCred` from `src/native/peer_cred.cc`, for the
platform `p` it was compiled for, against kernel state `k`, on argument
list `args`. Returns the produced value together with the `getsockopt`
calls performed, in order. Mirrors the source line by line: the argument
check precedes the platform branch; on Apple the `LOCAL_PEEREPID` query's
failure leaves the zero-initialised `pid` in place. -/
def GetPeerCred (p : OsFamily) (k : Kernel) (args : List JSVal) :
    GPCResult × List Syscall :=
  match args with
  | [] => (.thrownTypeError "Expected fd as number", [])
  | .other :: _ => (.thrownTypeError "Expected fd as number", [])
  | .number n :: _ =>
    let fd := toInt32 n
    match p with
    | .linux =>
      match k.soPeercred fd with
      | .error _ =>
          (.thrownError "getsockopt(SO_PEERCRED) failed", [.soPeercred fd])
      | .ok cred =>
          (.obj [("pid", cred.pid), ("uid", (cred.uid : Int)),
                 ("gid", (cred.gid : Int))],
           [.soPeercred fd])
    | .apple =>
      match k.localPeercred fd with
      | .error _ =>
          (.thrownError "getsockopt(LOCAL_PEERCRED) failed",
           [.localPeercred fd])
      | .ok cred =>
          let pid : Int :=
            match k.localPeerepid fd with
            | .error _ => 0
            | .ok pv => pv
          (.obj [("pid", pid), ("uid", (cred.cr_uid : Int)),
                 ("gid", (cred.cr_groups 0 : Int))],
           [.localPeercred fd, .localPeerepid fd])
    | .other => (.thrownError "Unsupported platform", [])

/-- A sample Linux credential for witness instantiations. -/
def sampleUcred : Ucred := { pid := 4242, uid := 1000, gid := 1000 }

/-- A sample BSD credential for witness instantiations. -/
def sampleXucred : Xucred :=
  { cr_version := 0, cr_uid := 1000, cr_ngroups := 1, cr_groups := fun _ => 1000 }

/-- A kernel on which every query succeeds with the sample credentials. -/
def kernelAllOk : Kernel :=
  { soPeercred := fun _ => .ok sampleUcred
    localPeercred := fun _ => .ok sampleXucred
    localPeerepid := fun _ => .ok 4242 }

/-- A kernel on which the mandatory queries fail with errno `e` and the
pid query also fails with errno `e`. -/
def kernelAllFail (e : Int) : Kernel :=
  { soPeercred := fun _ => .error e
    localPeercred := fun _ => .error e
    localPeerepid := fun _ => .error e }

/-- A kernel on which the mandatory queries succeed but the best-effort
`LOCAL_PEEREPID` query fails. -/
def kernelEpidFails : Kernel :=
  { soPeercred := fun _ => .ok sampleUcred
    localPeercred := fun _ => .ok sampleXucred
    localPeerepid := fun _ => .error 42 }

/-- Claim C1: on split-credential (Apple-style) platforms, when the
mandatory `LOCAL_PEERCRED` query succeeds but the best-effort
`LOCAL_PEEREPID` query fails, `GetPeerCred` still succeeds, returning an
object whose pid field is the zero default and whose uid and gid come
from the credential structure filled by the first query. -/
theorem apple_epid_failure_degrades_pid_to_zero
    (k : Kernel) (n : JSNum) (rest : List JSVal) (cred : Xucred) (e : Int)
    (hcred : k.localPeercred (toInt32 n) = .ok cred)
    (hepid : k.localPeerepid (toInt32 n) = .error e) :
    (GetPeerCred .apple k (.number n :: rest)).1 =
      .obj [("pid", 0), ("uid", (cred.cr_uid : Int)),
            ("gid", (cred.cr_groups 0 : Int))] := by
  simp [GetPeerCred, hcred, hepid]

/-- Witness for C1: on a kernel where the pid query fails with errno 42,
the call still succeeds with pid 0 and the sample uid/gid 1000/1000. -/
theorem apple_epid_failure_degrades_pid_to_zero_witness :
    (GetPeerCred .apple kernelEpidFails [.number (.val 3 0)]).1 =
      .obj [("pid", 0), ("uid", 1000), ("gid", 1000)] :=
  apple_epid_failure_degrades_pid_to_zero kernelEpidFails (.val 3 0) []
    sampleXucred 42 rfl rfl

/-- Claim C2: on combined-credential (Linux-style) platforms, a call with
a numeric descriptor performs exactly one socket-option query; if the
kernel reports an error the call fails with the `SO_PEERCRED` error and
no result object is produced, and if it succeeds the object's pid, uid
and gid are verbatim the fields of the kernel-filled `ucred`. -/
theorem linux_single_query_verbatim_fields
    (k : Kernel) (n : JSNum) (rest : List JSVal) :
    (GetPeerCred .linux k (.number n :: rest)).2 =
      [.soPeercred (toInt32 n)] ∧
    (∀ e, k.soPeercred (toInt32 n) = .error e →
      (GetPeerCred .linux k (.number n :: rest)).1 =
        .thrownError "getsockopt(SO_PEERCRED) failed") ∧
    (∀ c, k.soPeercred (toInt32 n) = .ok c →
      (GetPeerCred .linux k (.number n :: rest)).1 =
        .obj [("pid", c.pid), ("uid", (c.uid : Int)), ("gid", (c.gid : Int))]) := by
  refine ⟨?_, ?_, ?_⟩
  · cases h : k.soPeercred (toInt32 n) <;> simp [GetPeerCred, h]
  · intro e he
    simp [GetPeerCred, he]
  · intro c hc
    simp [GetPeerCred, hc]

/-- Witness for C2: on a kernel answering with the sample credential at
descriptor 7, the one query is issued and the fields are copied. -/
theorem linux_single_query_verbatim_fields_witness :
    (GetPeerCred .linux kernelAllOk [.number (.val 7 0)]).2 =
      [.soPeercred 7] ∧
    (GetPeerCred .linux kernelAllOk [.number (.val 7 0)]).1 =
      .obj [("pid", 4242), ("uid", 1000), ("gid", 1000)] := by
  have h := linux_single_query_verbatim_fields kernelAllOk (.val 7 0) []
  exact ⟨h.1, h.2.2 sampleUcred rfl⟩

/-- Counterexample to claim C3: the source builds the thrown error from a
fixed string and never reads `errno`, so two calls whose mandatory query
fails for different OS-level causes (errno 9 = EBADF versus errno 88 =
ENOTSOCK) deliver byte-for-byte identical errors. The delivered error
therefore cannot carry the originating OS error. -/
theorem queryfailed_identical_across_os_causes :
    (9 : Int) ≠ 88 ∧
    GetPeerCred .linux (kernelAllFail 9) [.number (.val 3 0)] =
      GetPeerCred .linux (kernelAllFail 88) [.number (.val 3 0)] :=
  ⟨by decide, rfl⟩

/-- Claim C3 as amended: when the mandatory credential syscall fails, the
error delivered to the caller is a fixed human-readable message naming
the failed query, independent of the OS-level error cause `e`; the
originating OS error is not carried. -/
theorem queryfailed_carries_fixed_message_only
    (k : Kernel) (n : JSNum) (rest : List JSVal) (e : Int) :
    (k.soPeercred (toInt32 n) = .error e →
      (GetPeerCred .linux k (.number n :: rest)).1 =
        .thrownError "getsockopt(SO_PEERCRED) failed") ∧
    (k.localPeercred (toInt32 n) = .error e →
      (GetPeerCred .apple k (.number n :: rest)).1 =
        .thrownError "getsockopt(LOCAL_PEERCRED) failed") := by
  constructor
  · intro h
    simp [GetPeerCred, h]
  · intro h
    simp [GetPeerCred, h]

/-- Witness for the amended C3: both mandatory-query failures deliver
their fixed messages on a kernel failing with errno 9. -/
theorem queryfailed_carries_fixed_message_only_witness :
    (GetPeerCred .linux (kernelAllFail 9) [.number (.val 3 0)]).1 =
      .thrownError "getsockopt(SO_PEERCRED) failed" ∧
    (GetPeerCred .apple (kernelAllFail 9) [.number (.val 3 0)]).1 =
      .thrownError "getsockopt(LOCAL_PEERCRED) failed" := by
  have h := queryfailed_carries_fixed_message_only (kernelAllFail 9) (.val 3 0) [] 9
  exact ⟨h.1 rfl, h.2 rfl⟩

/-- Claim C4: whenever the descriptor argument is absent (empty argument
list) or not a number, `GetPeerCred` throws the `TypeError` and performs
zero socket-option queries, on every platform. -/
theorem invalid_input_rejected_before_any_syscall
    (p : OsFamily) (k : Kernel) (args : List JSVal)
    (h : args = [] ∨ ∃ rest, args = .other :: rest) :
    GetPeerCred p k args = (.thrownTypeError "Expected fd as number", []) := by
  rcases h with h | ⟨rest, h⟩ <;> subst h <;> cases p <;> rfl

/-- Witness for C4: a call with no arguments on Linux is rejected with no
syscall performed. -/
theorem invalid_input_rejected_before_any_syscall_witness :
    GetPeerCred .linux kernelAllOk [] =
      (.thrownTypeError "Expected fd as number", []) :=
  invalid_input_rejected_before_any_syscall .linux kernelAllOk [] (Or.inl rfl)

/-- Claim C5: on split-credential (Apple-style) platforms, when the
mandatory `LOCAL_PEERCRED` query fails, the whole call fails with the
`LOCAL_PEERCRED` error, no object is returned, and the trace shows the
`LOCAL_PEEREPID` query was never issued. -/
theorem apple_mandatory_failure_is_fatal
    (k : Kernel) (n : JSNum) (rest : List JSVal) (e : Int)
    (h : k.localPeercred (toInt32 n) = .error e) :
    GetPeerCred .apple k (.number n :: rest) =
      (.thrownError "getsockopt(LOCAL_PEERCRED) failed",
       [.localPeercred (toInt32 n)]) := by
  simp [GetPeerCred, h]

/-- Witness for C5: on a kernel failing with errno 9 at descriptor 3, the
Apple path fails fatally after the single mandatory query. -/
theorem apple_mandatory_failure_is_fatal_witness :
    GetPeerCred .apple (kernelAllFail 9) [.number (.val 3 0)] =
      (.thrownError "getsockopt(LOCAL_PEERCRED) failed",
       [.localPeercred 3]) :=
  apple_mandatory_failure_is_fatal (kernelAllFail 9) (.val 3 0) [] 9 rfl

/-- Counterexample to claim C6: on the unsupported platform, a call with
no argument does not fail with the unsupported-platform error — the
argument check runs first and throws the `TypeError` instead, so not
every call on such platforms fails with `UnsupportedPlatform`. -/
theorem unsupported_platform_not_unconditional :
    (GetPeerCred .other kernelAllOk []).1 =
      .thrownTypeError "Expected fd as number" ∧
    (GetPeerCred .other kernelAllOk []).1 ≠
      .thrownError "Unsupported platform" :=
  ⟨rfl, by decide⟩

/-- Claim C6 as amended: on any platform other than the two supported
kernel families, no call ever performs a syscall, and every call whose
descriptor argument passes input validation (is present and numeric)
fails with the unsupported-platform error; calls with an absent or
non-numeric argument fail with the input-validation `TypeError` instead. -/
theorem unsupported_platform_fails_after_validation
    (k : Kernel) (args : List JSVal) :
    (GetPeerCred .other k args).2 = [] ∧
    (∀ n rest, args = .number n :: rest →
      (GetPeerCred .other k args).1 = .thrownError "Unsupported platform") := by
  constructor
  · cases args with
    | nil => rfl
    | cons a rest => cases a <;> rfl
  · intro n rest h
    subst h
    rfl

/-- Witness for the amended C6: a numeric-argument call on the
unsupported platform fails with the unsupported-platform error and an
empty syscall trace. -/
theorem unsupported_platform_fails_after_validation_witness :
    (GetPeerCred .other kernelAllOk [.number (.val 3 0)]).2 = [] ∧
    (GetPeerCred .other kernelAllOk [.number (.val 3 0)]).1 =
      .thrownError "Unsupported platform" := by
  have h := unsupported_platform_fails_after_validation kernelAllOk
    [.number (.val 3 0)]
  exact ⟨h.1, h.2 (.val 3 0) [] rfl⟩

/-- The pid value the Apple branch ends up with: the `pid_t pid = 0`
local, overwritten only when the `LOCAL_PEEREPID` query succeeds. -/
def epidOrZero (k : Kernel) (fd : Int) : Int :=
  match k.localPeerepid fd with
  | .error _ => 0
  | .ok pv => pv

/-- Claim C7: on split-credential (Apple-style) platforms a successful
call returns uid equal to the `cr_uid` field of the kernel-filled
`xucred` and gid equal to entry 0 (the head) of its `cr_groups` array,
for every credential structure the kernel may fill — the remaining group
entries are never consulted. -/
theorem apple_uid_from_cr_uid_gid_from_group_head
    (k : Kernel) (n : JSNum) (rest : List JSVal) (cred : Xucred)
    (h : k.localPeercred (toInt32 n) = .ok cred) :
    (GetPeerCred .apple k (.number n :: rest)).1 =
      .obj [("pid", epidOrZero k (toInt32 n)), ("uid", (cred.cr_uid : Int)),
            ("gid", (cred.cr_groups 0 : Int))] := by
  cases hp : k.localPeerepid (toInt32 n) with
  | error e => simp [GetPeerCred, epidOrZero, h, hp]
  | ok pv => simp [GetPeerCred, epidOrZero, h, hp]

/-- Witness for C7: on the all-succeeding kernel the Apple path projects
uid 1000 and the group-array head 1000 into the result. -/
theorem apple_uid_from_cr_uid_gid_from_group_head_witness :
    (GetPeerCred .apple kernelAllOk [.number (.val 3 0)]).1 =
      .obj [("pid", 4242), ("uid", 1000), ("gid", 1000)] :=
  apple_uid_from_cr_uid_gid_from_group_head kernelAllOk (.val 3 0) []
    sampleXucred rfl

/-- Claim C8: every success result is an object with exactly the three
fields pid, uid, gid in that order, populated together by the one call,
and the uid and gid values are non-negative. -/
theorem success_object_shape_and_nonneg
    (p : OsFamily) (k : Kernel) (args : List JSVal)
    (fields : List (String × Int))
    (h : (GetPeerCred p k args).1 = .obj fields) :
    fields.map Prod.fst = ["pid", "uid", "gid"] ∧
    ∀ kv ∈ fields, (kv.1 = "uid" ∨ kv.1 = "gid") → 0 ≤ kv.2 := by
  cases args with
  | nil => simp [GetPeerCred] at h
  | cons a rest =>
    cases a with
    | other => simp [GetPeerCred] at h
    | number n =>
      cases p with
      | linux =>
        cases hk : k.soPeercred (toInt32 n) with
        | error e => simp [GetPeerCred, hk] at h
        | ok c =>
          simp only [GetPeerCred, hk] at h
          have hf := GPCResult.obj.inj h
          subst hf
          refine ⟨rfl, ?_⟩
          intro kv hkv hname
          simp only [List.mem_cons, List.not_mem_nil, or_false] at hkv
          rcases hkv with rfl | rfl | rfl
          · rcases hname with hn | hn <;> simp at hn
          · exact Int.natCast_nonneg _
          · exact Int.natCast_nonneg _
      | apple =>
        cases hk : k.localPeercred (toInt32 n) with
        | error e => simp [GetPeerCred, hk] at h
        | ok c =>
          simp only [GetPeerCred, hk] at h
          have hf := GPCResult.obj.inj h
          subst hf
          refine ⟨rfl, ?_⟩
          intro kv hkv hname
          simp only [List.mem_cons, List.not_mem_nil, or_false] at hkv
          rcases hkv with rfl | rfl | rfl
          · rcases hname with hn | hn <;> simp at hn
          · exact Int.natCast_nonneg _
          · exact Int.natCast_nonneg _
      | other => simp [GetPeerCred] at h

/-- Witness for C8: the shape consequence applied to a concrete success
result, together with the non-negativity of its uid entry. -/
theorem success_object_shape_and_nonneg_witness :
    ([("pid", (4242 : Int)), ("uid", 1000), ("gid", 1000)]).map Prod.fst =
      ["pid", "uid", "gid"] ∧
    (0 : Int) ≤ 1000 := by
  have h := success_object_shape_and_nonneg .linux kernelAllOk
    [.number (.val 3 0)] [("pid", 4242), ("uid", 1000), ("gid", 1000)] rfl
  exact ⟨h.1, h.2 ("uid", 1000) (by simp) (Or.inl rfl)⟩

/-- Claim C9: the result of a call is determined by the descriptor and
the kernel-held peer-credential state at that descriptor alone — two
calls with the same numeric descriptor argument, against kernels that
agree at that descriptor (an unchanged connection), return identical
results, including identical syscall traces, whatever else differs. -/
theorem resolve_deterministic_for_unchanged_state
    (p : OsFamily) (k1 k2 : Kernel) (n : JSNum) (rest1 rest2 : List JSVal)
    (h1 : k1.soPeercred (toInt32 n) = k2.soPeercred (toInt32 n))
    (h2 : k1.localPeercred (toInt32 n) = k2.localPeercred (toInt32 n))
    (h3 : k1.localPeerepid (toInt32 n) = k2.localPeerepid (toInt32 n)) :
    GetPeerCred p k1 (.number n :: rest1) =
      GetPeerCred p k2 (.number n :: rest2) := by
  cases p <;> simp only [GetPeerCred, h1, h2, h3]

/-- Witness for C9: two calls on the same kernel and descriptor (with
differing trailing arguments) return identical results. -/
theorem resolve_deterministic_for_unchanged_state_witness :
    GetPeerCred .linux kernelAllOk [.number (.val 3 0)] =
      GetPeerCred .linux kernelAllOk [.number (.val 3 0), .other] :=
  resolve_deterministic_for_unchanged_state .linux kernelAllOk kernelAllOk
    (.val 3 0) [] [.other] rfl rfl rfl

/-- Claim C10: every numeric argument — fractional (3.75, the dyadic
stand-in for values like 3.7), NaN, or negative — passes the input check
on every platform, and the descriptor used in the syscall is its 32-bit
signed coercion: fractions truncate toward zero, NaN becomes 0, and
negative integers pass through. -/
theorem numeric_argument_always_validates_and_truncates
    (n : JSNum) (k : Kernel) (rest : List JSVal) :
    (∀ p m, (GetPeerCred p k (.number n :: rest)).1 ≠ .thrownTypeError m) ∧
    (GetPeerCred .linux k (.number n :: rest)).2 =
      [.soPeercred (toInt32 n)] ∧
    ((GetPeerCred .apple k (.number n :: rest)).2).head? =
      some (.localPeercred (toInt32 n)) ∧
    toInt32 (.val 15 (-2)) = 3 ∧
    toInt32 .nan = 0 ∧
    toInt32 (.val (-3) 0) = -3 := by
  refine ⟨?_, ?_, ?_, by decide, by decide, by decide⟩
  · intro p m
    cases p with
    | linux => cases hk : k.soPeercred (toInt32 n) <;> simp [GetPeerCred, hk]
    | apple =>
      cases hk : k.localPeercred (toInt32 n) with
      | error e => simp [GetPeerCred, hk]
      | ok c =>
        cases hp : k.localPeerepid (toInt32 n) <;> simp [GetPeerCred, hk, hp]
    | other => simp [GetPeerCred]
  · cases hk : k.soPeercred (toInt32 n) <;> simp [GetPeerCred, hk]
  · cases hk : k.localPeercred (toInt32 n) with
    | error e => simp [GetPeerCred, hk]
    | ok c =>
      cases hp : k.localPeerepid (toInt32 n) <;> simp [GetPeerCred, hk, hp]

/-- Witness for C10: the fractional argument 3.75 passes validation and
the syscall targets the truncated descriptor 3. -/
theorem numeric_argument_always_validates_and_truncates_witness :
    (GetPeerCred .linux kernelAllOk [.number (.val 15 (-2))]).1 ≠
      .thrownTypeError "Expected fd as number" ∧
    (GetPeerCred .linux kernelAllOk [.number (.val 15 (-2))]).2 =
      [.soPeercred 3] := by
  have h := numeric_argument_always_validates_and_truncates (.val 15 (-2))
    kernelAllOk []
  exact ⟨h.1 .linux "Expected fd as number", h.2.1⟩
